import Mathlib

/-!
# Verification of the bredis storage layer

Shallow embedding of the storage abstraction layer of the bredis key-value
store: the value model (`src/storages/value.rs`), the error taxonomy
(`src/errors.rs`), and the three backend implementations
(`src/storages/bredis.rs` in-memory backend, `src/storages/rocksdb.rs`
transactional-engine backend, `src/storages/surrealkv.rs` versioned-store
backend).

Modelling conventions:
* Machine integers `i64` are embedded as `Int`; where the source relies on
  unguarded two's-complement arithmetic we reduce with `i64wrap`.
* Keys are byte sequences (`List Nat`, each byte < 256).  The in-memory
  backend stores keys as UTF-8 `String`s obtained by an unwrapping decode of
  the byte key; since a valid UTF-8 string and its byte sequence determine
  each other (and `str::starts_with` is byte-prefix on UTF-8 data), the
  embedding keeps byte keys throughout.
* Every backend store is embedded as an association list from keys to
  `StorageValue`, read through `lookupKV` / written through `insertKV` /
  `removeKV`.  For the two ordered engines the list is kept in ascending
  lexicographic key order, and their iterators are modelled on that order.
* A backend call is a function from the store (and the clock reading
  `chrono::Utc::now().timestamp()`, passed explicitly as `now : Int`) to the
  pair of its result and the store after the call.  Writes that the source
  buffers in an engine transaction take effect only on the paths where the
  source commits that transaction; on paths that return without committing,
  the resulting store is the unchanged input store.
* `Result<T, DatabaseError>` is `Except DatabaseError T`; a Rust panic
  (an `unwrap` on a failing computation) is a distinguished result
  constructor where a reachable code path panics.
-/

/-- Value types supported by the database (`ValueType` in `value.rs`). -/
inductive ValueType : Type
  | String : ValueType
  | Integer : ValueType
deriving DecidableEq

/-- A stored entry (`StorageValue` in `value.rs`): a type tag, a
time-to-live field (`i64`, embedded as `Int`), and raw value bytes. -/
structure StorageValue : Type where
  value_type : ValueType
  ttl : Int
  value : List Nat
deriving DecidableEq

/-- The closed error taxonomy of `errors.rs`.  `ValueNotFound` carries the
offending key (the source carries its lossy UTF-8 decoding; the embedding
keeps the bytes). -/
inductive DatabaseError : Type
  | InitialFailed : String → DatabaseError
  | InvalidValueType : String → DatabaseError
  | ValueNotFound : List Nat → DatabaseError
  | InternalError : String → DatabaseError
deriving DecidableEq

/-- Keys are opaque byte sequences ordered lexicographically. -/
abbrev Key := List Nat

/-- A backend store: an association list from keys to stored entries. -/
abbrev KVStore := List (Key × StorageValue)

instance {ε α : Type} [DecidableEq ε] [DecidableEq α] : DecidableEq (Except ε α) := by
  intro a b
  cases a <;> cases b
  case ok.ok x y =>
    exact if h : x = y then isTrue (by rw [h]) else isFalse (by intro hc; cases hc; exact h rfl)
  case error.error e f =>
    exact if h : e = f then isTrue (by rw [h]) else isFalse (by intro hc; cases hc; exact h rfl)
  case ok.error x f => exact isFalse (by intro hc; cases hc)
  case error.ok e y => exact isFalse (by intro hc; cases hc)

/-- Map lookup on an association-list store. -/
def lookupKV : KVStore → Key → Option StorageValue
  | [], _ => none
  | (k, v) :: rest, key => if k = key then some v else lookupKV rest key

/-- Map insert/overwrite on an association-list store (replaces the binding
of an existing key, otherwise appends). -/
def insertKV : KVStore → Key → StorageValue → KVStore
  | [], key, v => [(key, v)]
  | (k, w) :: rest, key, v =>
      if k = key then (key, v) :: rest else (k, w) :: insertKV rest key v

/-- Map removal on an association-list store. -/
def removeKV : KVStore → Key → KVStore
  | [], _ => []
  | (k, w) :: rest, key => if k = key then rest else (k, w) :: removeKV rest key

/-- Strict lexicographic byte order on keys. -/
def lexLt : Key → Key → Bool
  | [], [] => false
  | [], _ :: _ => true
  | _ :: _, [] => false
  | a :: as, b :: bs => a < b || (a = b && lexLt as bs)

/-- Reflexive lexicographic byte order on keys. -/
def lexLe : Key → Key → Bool
  | [], _ => true
  | _ :: _, [] => false
  | a :: as, b :: bs => a < b || (a = b && lexLe as bs)

/-- `k` starts with the byte sequence `p` (Rust `starts_with`). -/
def bytesStartWith : Key → Key → Bool
  | _, [] => true
  | [], _ :: _ => false
  | a :: as, b :: bs => a = b && bytesStartWith as bs

/-- Two's-complement reduction of an `i64` arithmetic result (the source
performs unguarded `i64` addition/subtraction). -/
def i64wrap (n : Int) : Int := (n + 2 ^ 63) % 2 ^ 64 - 2 ^ 63

/-- Most-significant-first decimal digit bytes of a natural number
(fuel-based, mirroring `to_string` on a non-negative integer). -/
def natDecDigitsAux : Nat → Nat → List Nat → List Nat
  | 0, _, acc => acc
  | fuel + 1, n, acc =>
      if n / 10 = 0 then (48 + n % 10) :: acc
      else natDecDigitsAux fuel (n / 10) ((48 + n % 10) :: acc)

/-- Decimal ASCII bytes of a natural number. -/
def natToDecimalBytes (n : Nat) : List Nat := natDecDigitsAux (n + 1) n []

/-- Decimal ASCII bytes of an integer (Rust `i64::to_string`). -/
def intToDecimalBytes (n : Int) : List Nat :=
  if n < 0 then 45 :: natToDecimalBytes (-n).toNat else natToDecimalBytes n.toNat

/-- ASCII decimal digit test. -/
def isDigit (b : Nat) : Bool := 48 ≤ b && b ≤ 57

/-- Left fold of decimal digits onto an accumulator; fails on the first
non-digit byte. -/
def digitsToNat (acc : Nat) : List Nat → Option Nat
  | [] => some acc
  | b :: rest => if isDigit b then digitsToNat (acc * 10 + (b - 48)) rest else none

/-- Parse a non-empty all-digit byte string as a natural number. -/
def parseDecNat : List Nat → Option Nat
  | [] => none
  | b :: rest => digitsToNat 0 (b :: rest)

/-- Rust `str::parse::<i64>` on the byte string of a UTF-8 string: an
optional sign followed by at least one ASCII digit, rejecting values outside
the `i64` range. -/
def parseI64 (s : List Nat) : Option Int :=
  match s with
  | 43 :: rest => (parseDecNat rest).bind fun n =>
      if n ≤ 2 ^ 63 - 1 then some (n : Int) else none
  | 45 :: rest => (parseDecNat rest).bind fun n =>
      if n ≤ 2 ^ 63 then some (-(n : Int)) else none
  | _ => (parseDecNat s).bind fun n =>
      if n ≤ 2 ^ 63 - 1 then some (n : Int) else none

/-- A UTF-8 continuation byte. -/
def utf8Cont (b : Nat) : Bool := 128 ≤ b && b < 192

/-- Standard UTF-8 well-formedness of a byte sequence (the acceptance
condition of Rust `String::from_utf8`). -/
def isValidUtf8 : List Nat → Bool
  | [] => true
  | b :: rest =>
      if b < 128 then isValidUtf8 rest
      else if 194 ≤ b && b ≤ 223 then
        match rest with
        | c :: r => utf8Cont c && isValidUtf8 r
        | [] => false
      else if b = 224 then
        match rest with
        | c :: d :: r => (160 ≤ c && c < 192) && utf8Cont d && isValidUtf8 r
        | _ => false
      else if 225 ≤ b && b ≤ 236 then
        match rest with
        | c :: d :: r => utf8Cont c && utf8Cont d && isValidUtf8 r
        | _ => false
      else if b = 237 then
        match rest with
        | c :: d :: r => (128 ≤ c && c < 160) && utf8Cont d && isValidUtf8 r
        | _ => false
      else if 238 ≤ b && b ≤ 239 then
        match rest with
        | c :: d :: r => utf8Cont c && utf8Cont d && isValidUtf8 r
        | _ => false
      else if b = 240 then
        match rest with
        | c :: d :: e :: r => (144 ≤ c && c < 192) && utf8Cont d && utf8Cont e && isValidUtf8 r
        | _ => false
      else if 241 ≤ b && b ≤ 243 then
        match rest with
        | c :: d :: e :: r => utf8Cont c && utf8Cont d && utf8Cont e && isValidUtf8 r
        | _ => false
      else if b = 244 then
        match rest with
        | c :: d :: e :: r => (128 ≤ c && c < 144) && utf8Cont d && utf8Cont e && isValidUtf8 r
        | _ => false
      else false

/-- `StorageValue::get_integer_value` (`value.rs` lines 64-87): requires the
`Integer` type tag, decodes the value bytes as UTF-8, then parses them as a
64-bit signed decimal integer.  The source formats the parser error into the
second `InternalError` message; the embedding keeps the fixed head of that
message. -/
def StorageValue.get_integer_value (sv : StorageValue) : Except DatabaseError Int :=
  if sv.value_type ≠ ValueType.Integer then
    Except.error (DatabaseError.InvalidValueType "Value is not an integer")
  else if isValidUtf8 sv.value = false then
    Except.error (DatabaseError.InternalError "Failed to parse integer value")
  else
    match parseI64 sv.value with
    | some n => Except.ok n
    | none => Except.error (DatabaseError.InternalError "Failed to parse integer value")

example : natToDecimalBytes 0 = [48] := by decide
example : natToDecimalBytes 123 = [49, 50, 51] := by decide
example : intToDecimalBytes (-2) = [45, 50] := by decide
example : parseI64 [49, 50, 51] = some 123 := by decide
example : parseI64 [45, 50] = some (-2) := by decide
example : parseI64 [97, 98, 99] = none := by decide
example : isValidUtf8 [97, 98, 99] = true := by decide
example : isValidUtf8 [255] = false := by decide
example : i64wrap 5 = 5 := by decide

/-! ## Engine transactions

The two engine-backed stores buffer writes in a per-call transaction; a
buffered operation takes effect only if the call commits the transaction. -/

/-- A buffered transactional write. -/
inductive TxnOp : Type
  | put : Key → StorageValue → TxnOp
  | del : Key → TxnOp
deriving DecidableEq

/-- Apply committed transaction operations to a store, in order. -/
def applyOps (store : KVStore) : List TxnOp → KVStore
  | [] => store
  | TxnOp.put k v :: rest => applyOps (insertKV store k v) rest
  | TxnOp.del k :: rest => applyOps (removeKV store k) rest

/-! ## In-memory backend (`src/storages/bredis.rs`)

A `HashMap<String, StorageValue>` behind one reader/writer lock.  Every
method below is the body of the corresponding `Storage` impl, with the map
as the explicit state. -/

/-- `Bredis::get` (`bredis.rs` lines 31-49).  Note the source reads the
entry through `get_mut` and executes `value.ttl -= now` on the stored entry
itself: on the unexpired path the map retains the entry with the remaining
seconds written into its `ttl` field. -/
def Bredis.get (store : KVStore) (now : Int) (key : Key) :
    Except DatabaseError (Option StorageValue) × KVStore :=
  match lookupKV store key with
  | some v =>
      if v.ttl < 0 then (Except.ok (some v), store)
      else
        let v2 : StorageValue := { v with ttl := v.ttl - now }
        if v2.ttl < 0 then (Except.ok none, removeKV store key)
        else (Except.ok (some v2), insertKV store key v2)
  | none => (Except.ok none, store)

/-- `Bredis::set` (`bredis.rs` lines 51-63): negative requested ttl is
stored as the sentinel `-1`, otherwise the absolute instant `now + ttl`. -/
def Bredis.set (store : KVStore) (now : Int) (key : Key) (value : StorageValue) :
    Except DatabaseError Unit × KVStore :=
  let v2 : StorageValue :=
    if value.ttl < 0 then { value with ttl := -1 } else { value with ttl := value.ttl + now }
  (Except.ok (), insertKV store key v2)

/-- `Bredis::get_all_keys` (`bredis.rs` lines 65-75): filters the map keys
by `starts_with`; it takes the read lock, consults no clock, and neither
skips nor deletes expired entries. -/
def Bredis.get_all_keys (store : KVStore) (pre : Key) :
    Except DatabaseError (List Key) × KVStore :=
  (Except.ok ((store.map Prod.fst).filter (fun k => bytesStartWith k pre)), store)

/-- `Bredis::get_ttl` (`bredis.rs` lines 77-100). -/
def Bredis.get_ttl (store : KVStore) (now : Int) (key : Key) :
    Except DatabaseError Int × KVStore :=
  match lookupKV store key with
  | some v =>
      if v.ttl < 0 then (Except.ok (-1), store)
      else
        let t := v.ttl - now
        if t > 0 then (Except.ok t, store)
        else (Except.error (DatabaseError.ValueNotFound key), removeKV store key)
  | none => (Except.error (DatabaseError.ValueNotFound key), store)

/-- Result of an in-memory counter operation.  `panicked` is the outcome of
the source line `string_value.unwrap().parse::<i64>().unwrap()` when the
parse fails (`bredis.rs` line 144 / 175): the thread panics instead of
returning an error. -/
inductive BredisCounterResult : Type
  | ok : StorageValue → KVStore → BredisCounterResult
  | err : DatabaseError → KVStore → BredisCounterResult
  | panicked : BredisCounterResult
deriving DecidableEq

/-- `Bredis::increment` (`bredis.rs` lines 120-148).  The source resolves
the entry with `entry(key).or_insert_with(..)`: a missing key is *always*
populated with a fresh Integer entry holding `default_value.unwrap_or(0)`
before the arithmetic runs, whether or not a default was supplied. -/
def Bredis.increment (store : KVStore) (key : Key) (incrementValue : Int)
    (defaultValue : Option Int) : BredisCounterResult :=
  let resolved : StorageValue × KVStore :=
    match lookupKV store key with
    | some v => (v, store)
    | none =>
        let fresh : StorageValue :=
          ⟨ValueType.Integer, -1, intToDecimalBytes (defaultValue.getD 0)⟩
        (fresh, insertKV store key fresh)
  let v0 := resolved.1
  let store1 := resolved.2
  if v0.value_type ≠ ValueType.Integer then
    BredisCounterResult.err (DatabaseError.InvalidValueType "Value is not an integer") store1
  else if isValidUtf8 v0.value = false then
    BredisCounterResult.err (DatabaseError.InternalError "Failed to parse integer value") store1
  else
    match parseI64 v0.value with
    | none => BredisCounterResult.panicked
    | some cur =>
        let v1 : StorageValue := { v0 with value := intToDecimalBytes (i64wrap (cur + incrementValue)) }
        BredisCounterResult.ok v1 (insertKV store1 key v1)

/-- `Bredis::decrement` (`bredis.rs` lines 150-179): mirror of
`Bredis.increment` with subtraction. -/
def Bredis.decrement (store : KVStore) (key : Key) (decrementValue : Int)
    (defaultValue : Option Int) : BredisCounterResult :=
  let resolved : StorageValue × KVStore :=
    match lookupKV store key with
    | some v => (v, store)
    | none =>
        let fresh : StorageValue :=
          ⟨ValueType.Integer, -1, intToDecimalBytes (defaultValue.getD 0)⟩
        (fresh, insertKV store key fresh)
  let v0 := resolved.1
  let store1 := resolved.2
  if v0.value_type ≠ ValueType.Integer then
    BredisCounterResult.err (DatabaseError.InvalidValueType "Value is not an integer") store1
  else if isValidUtf8 v0.value = false then
    BredisCounterResult.err (DatabaseError.InternalError "Failed to parse integer value") store1
  else
    match parseI64 v0.value with
    | none => BredisCounterResult.panicked
    | some cur =>
        let v1 : StorageValue := { v0 with value := intToDecimalBytes (i64wrap (cur - decrementValue)) }
        BredisCounterResult.ok v1 (insertKV store1 key v1)

/-- `Bredis::delete` (`bredis.rs` lines 181-187). -/
def Bredis.delete (store : KVStore) (key : Key) : Except DatabaseError Unit × KVStore :=
  (Except.ok (), removeKV store key)

/-! ## Transactional-engine backend (`src/storages/rocksdb.rs`)

An optimistic-transaction engine over an ordered key space.  The store list
is kept in ascending `lexLe` key order; `prefix_iterator(p)` seeks to the
first key not below `p` and then iterates in key order to the *end of the
store* (the engine guarantees only a starting position, not an exclusive
bound).  A transaction's buffered writes reach the store only on the paths
where the source calls `txn.commit()`. -/

/-- `Rocksdb::delete_on_ttl` (`rocksdb.rs` lines 467-477): if the remaining
ttl of the (already clock-adjusted) entry is `<= 0`, buffer a transactional
delete and report the entry as expired.  Note the source passes
`key.value.as_slice()` to `txn.delete`: the delete targets the entry's
*value bytes*, not its key. -/
def Rocksdb.delete_on_ttl (ops : List TxnOp) (sv : StorageValue) : Bool × List TxnOp :=
  if sv.ttl ≤ 0 then (true, ops ++ [TxnOp.del sv.value]) else (false, ops)

/-- `Rocksdb::get` (`rocksdb.rs` lines 130-150).  The transaction opened at
the top of the method is never committed, so the delete buffered by
`delete_on_ttl` on the expired path is discarded and the store is unchanged
on every path. -/
def Rocksdb.get (store : KVStore) (now : Int) (key : Key) :
    Except DatabaseError (Option StorageValue) × KVStore :=
  match lookupKV store key with
  | some sv0 =>
      if sv0.ttl > -1 then
        let sv : StorageValue := { sv0 with ttl := sv0.ttl - now }
        match Rocksdb.delete_on_ttl [] sv with
        | (true, _ops) => (Except.ok none, store)
        | (false, _ops) => (Except.ok (some sv), store)
      else (Except.ok (some sv0), store)
  | none => (Except.ok none, store)

/-- One step of the `Rocksdb::get_all_keys` scan loop (`rocksdb.rs` lines
163-180): an expired entry is skipped (its delete buffered); every other
encountered key is pushed, with no check that it still starts with the
requested byte sequence. -/
def Rocksdb.scanStep (now : Int) (acc : List Key × List TxnOp) (e : Key × StorageValue) :
    List Key × List TxnOp :=
  if e.2.ttl > -1 then
    let sv : StorageValue := { e.2 with ttl := e.2.ttl - now }
    match Rocksdb.delete_on_ttl acc.2 sv with
    | (true, ops2) => (acc.1, ops2)
    | (false, ops2) => (acc.1 ++ [e.1], ops2)
  else (acc.1 ++ [e.1], acc.2)

/-- `Rocksdb::get_all_keys` (`rocksdb.rs` lines 159-182): folds `scanStep`
over every entry from the iterator's seek position (first key not below the
requested bytes) to the end of the store.  The transaction is never
committed, so buffered expiry deletes are discarded. -/
def Rocksdb.get_all_keys (store : KVStore) (now : Int) (pre : Key) :
    Except DatabaseError (List Key) × KVStore :=
  let scanned := (store.filter (fun e => lexLe pre e.1)).foldl (Rocksdb.scanStep now) ([], [])
  (Except.ok scanned.1, store)

/-- `Rocksdb::get_ttl` (`rocksdb.rs` lines 201-230).  The expired entry is
deleted through `self.delete(key)` directly on the store (not through the
uncommitted read transaction), so this delete is durable. -/
def Rocksdb.get_ttl (store : KVStore) (now : Int) (key : Key) :
    Except DatabaseError Int × KVStore :=
  match lookupKV store key with
  | some sv =>
      if sv.ttl ≤ 0 then (Except.ok sv.ttl, store)
      else
        let t := sv.ttl - now
        if t > 0 then (Except.ok t, store)
        else (Except.error (DatabaseError.ValueNotFound key), removeKV store key)
  | none => (Except.error (DatabaseError.ValueNotFound key), store)

/-- `Rocksdb::set` (`rocksdb.rs` lines 278-290): normalizes the requested
ttl (negative becomes the sentinel `-1`, otherwise `now + ttl`) and writes
through `store.put` directly. -/
def Rocksdb.set (store : KVStore) (now : Int) (key : Key) (value : StorageValue) :
    Except DatabaseError Unit × KVStore :=
  let v2 : StorageValue :=
    if value.ttl < 0 then { value with ttl := -1 } else { value with ttl := value.ttl + now }
  (Except.ok (), insertKV store key v2)

/-- `Rocksdb::increment` (`rocksdb.rs` lines 308-353): on a present key the
stored entry's bytes are re-parsed through `get_integer_value` and only the
value bytes are rewritten; on an absent key a fresh no-expiry Integer entry
`default + value` is synthesized when a default was supplied, else
`ValueNotFound`.  The write paths buffer `txn.put` and commit. -/
def Rocksdb.increment (store : KVStore) (key : Key) (value : Int)
    (defaultValue : Option Int) : Except DatabaseError StorageValue × KVStore :=
  match lookupKV store key with
  | some raw =>
      match raw.get_integer_value with
      | Except.error e => (Except.error e, store)
      | Except.ok cur =>
          let sv : StorageValue := { raw with value := intToDecimalBytes (i64wrap (cur + value)) }
          (Except.ok sv, applyOps store [TxnOp.put key sv])
  | none =>
      match defaultValue with
      | some d =>
          let sv : StorageValue :=
            ⟨ValueType.Integer, -1, intToDecimalBytes (i64wrap (d + value))⟩
          (Except.ok sv, applyOps store [TxnOp.put key sv])
      | none => (Except.error (DatabaseError.ValueNotFound key), store)

/-- `Rocksdb::decrement` (`rocksdb.rs` lines 371-416): mirror of
`Rocksdb.increment` with subtraction. -/
def Rocksdb.decrement (store : KVStore) (key : Key) (value : Int)
    (defaultValue : Option Int) : Except DatabaseError StorageValue × KVStore :=
  match lookupKV store key with
  | some raw =>
      match raw.get_integer_value with
      | Except.error e => (Except.error e, store)
      | Except.ok cur =>
          let sv : StorageValue := { raw with value := intToDecimalBytes (i64wrap (cur - value)) }
          (Except.ok sv, applyOps store [TxnOp.put key sv])
  | none =>
      match defaultValue with
      | some d =>
          let sv : StorageValue :=
            ⟨ValueType.Integer, -1, intToDecimalBytes (i64wrap (d - value))⟩
          (Except.ok sv, applyOps store [TxnOp.put key sv])
      | none => (Except.error (DatabaseError.ValueNotFound key), store)

/-- `Rocksdb::delete` (`rocksdb.rs` lines 428-433): direct store delete. -/
def Rocksdb.delete (store : KVStore) (key : Key) : Except DatabaseError Unit × KVStore :=
  (Except.ok (), removeKV store key)

/-! ## Versioned-store backend (`src/storages/surrealkv.rs`)

An MVCC store whose transactions must be explicitly committed: a buffered
write on a path that returns before `txn.commit().await` has no effect.
`txn.scan(prefix..prefix ++ [0xFF])` yields the entries whose keys lie in
that half-open range, in ascending key order (the store list is kept
sorted). -/

/-- `SurrealKV::get` (`surrealkv.rs` lines 32-55).  On the expired path the
source buffers `txn.delete(key)` and returns `Ok(None)` *without* reaching
the `txn.commit()` at the end of the method, so the delete is discarded. -/
def SurrealKV.get (store : KVStore) (now : Int) (key : Key) :
    Except DatabaseError (Option StorageValue) × KVStore :=
  match lookupKV store key with
  | none => (Except.ok none, store)
  | some v0 =>
      if v0.ttl < 0 then (Except.ok (some v0), store)
      else
        let v : StorageValue := { v0 with ttl := v0.ttl - now }
        if v.ttl ≤ 0 then (Except.ok none, store)
        else (Except.ok (some v), store)

/-- One step of the `SurrealKV::get_all_keys` scan loop (`surrealkv.rs`
lines 66-77): an expired entry is skipped and its delete buffered in the
same transaction; other keys are pushed. -/
def SurrealKV.scanStep (now : Int) (acc : List Key × List TxnOp) (e : Key × StorageValue) :
    List Key × List TxnOp :=
  if e.2.ttl > -1 then
    let t := e.2.ttl - now
    if t ≤ 0 then (acc.1, acc.2 ++ [TxnOp.del e.1])
    else (acc.1 ++ [e.1], acc.2)
  else (acc.1 ++ [e.1], acc.2)

/-- `SurrealKV::get_all_keys` (`surrealkv.rs` lines 57-81): scans the range
from the requested bytes up to (exclusively) the requested bytes with `0xFF`
appended, then commits, so the buffered expiry deletes take effect. -/
def SurrealKV.get_all_keys (store : KVStore) (now : Int) (pre : Key) :
    Except DatabaseError (List Key) × KVStore :=
  let upper := pre ++ [255]
  let ranged := store.filter (fun e => lexLe pre e.1 && lexLt e.1 upper)
  let scanned := ranged.foldl (SurrealKV.scanStep now) ([], [])
  (Except.ok scanned.1, applyOps store scanned.2)

/-- `SurrealKV::get_ttl` (`surrealkv.rs` lines 83-109).  On the expired path
the source buffers `txn.delete(key)` and returns the `ValueNotFound` error
*without* reaching `txn.commit()`, so the delete is discarded. -/
def SurrealKV.get_ttl (store : KVStore) (now : Int) (key : Key) :
    Except DatabaseError Int × KVStore :=
  match lookupKV store key with
  | none => (Except.error (DatabaseError.ValueNotFound key), store)
  | some v =>
      if v.ttl < 0 then (Except.ok (-1), store)
      else
        let t := v.ttl - now
        if t ≤ 0 then (Except.error (DatabaseError.ValueNotFound key), store)
        else (Except.ok t, store)

/-- `SurrealKV::set` (`surrealkv.rs` lines 135-149): same ttl normalization
as the other backends (the source tests `ttl >= 0` instead of `ttl < 0`,
with the branches swapped); the write is committed. -/
def SurrealKV.set (store : KVStore) (now : Int) (key : Key) (value : StorageValue) :
    Except DatabaseError Unit × KVStore :=
  let v2 : StorageValue :=
    if value.ttl ≥ 0 then { value with ttl := value.ttl + now } else { value with ttl := -1 }
  (Except.ok (), applyOps store [TxnOp.put key v2])

/-- `SurrealKV::increment` (`surrealkv.rs` lines 151-186): same contract as
`Rocksdb.increment`; the write is committed. -/
def SurrealKV.increment (store : KVStore) (key : Key) (value : Int)
    (defaultValue : Option Int) : Except DatabaseError StorageValue × KVStore :=
  match lookupKV store key with
  | some raw =>
      match raw.get_integer_value with
      | Except.error e => (Except.error e, store)
      | Except.ok cur =>
          let sv : StorageValue := { raw with value := intToDecimalBytes (i64wrap (cur + value)) }
          (Except.ok sv, applyOps store [TxnOp.put key sv])
  | none =>
      match defaultValue with
      | some d =>
          let sv : StorageValue :=
            ⟨ValueType.Integer, -1, intToDecimalBytes (i64wrap (d + value))⟩
          (Except.ok sv, applyOps store [TxnOp.put key sv])
      | none => (Except.error (DatabaseError.ValueNotFound key), store)

/-- `SurrealKV::decrement` (`surrealkv.rs` lines 188-223): mirror of
`SurrealKV.increment` with subtraction. -/
def SurrealKV.decrement (store : KVStore) (key : Key) (value : Int)
    (defaultValue : Option Int) : Except DatabaseError StorageValue × KVStore :=
  match lookupKV store key with
  | some raw =>
      match raw.get_integer_value with
      | Except.error e => (Except.error e, store)
      | Except.ok cur =>
          let sv : StorageValue := { raw with value := intToDecimalBytes (i64wrap (cur - value)) }
          (Except.ok sv, applyOps store [TxnOp.put key sv])
  | none =>
      match defaultValue with
      | some d =>
          let sv : StorageValue :=
            ⟨ValueType.Integer, -1, intToDecimalBytes (i64wrap (d - value))⟩
          (Except.ok sv, applyOps store [TxnOp.put key sv])
      | none => (Except.error (DatabaseError.ValueNotFound key), store)

/-- `SurrealKV::delete` (`surrealkv.rs` lines 225-231): committed delete. -/
def SurrealKV.delete (store : KVStore) (key : Key) : Except DatabaseError Unit × KVStore :=
  (Except.ok (), applyOps store [TxnOp.del key])

/-! ## Binary encoding (`StorageValue::to_binary` / `from_binary`)

`value.rs` lines 37-48 delegate to `bincode::serialize` /
`bincode::deserialize` with the serde-derived instance.  The default
bincode 1.x configuration encodes the struct field by field in declaration
order, with fixed-width little-endian integers: the `ValueType` enum as its
`u32` variant index, `ttl` as the 8 two's-complement bytes of the `i64`,
and `value` as a `u64` byte length followed by the raw bytes.
`bincode::deserialize` does not reject trailing bytes. -/

/-- `k` little-endian bytes of a natural number (low byte first). -/
def leBytes : Nat → Nat → List Nat
  | 0, _ => []
  | k + 1, n => n % 256 :: leBytes k (n / 256)

/-- Read a `k`-byte little-endian natural number from the head of a byte
stream, returning it with the unread remainder. -/
def readLe : Nat → List Nat → Option (Nat × List Nat)
  | 0, bs => some (0, bs)
  | _ + 1, [] => none
  | k + 1, b :: bs => (readLe k bs).map fun p => (b + 256 * p.1, p.2)

/-- Split off exactly `n` leading bytes of a stream. -/
def takeExact : Nat → List Nat → Option (List Nat × List Nat)
  | 0, bs => some ([], bs)
  | _ + 1, [] => none
  | n + 1, b :: bs => (takeExact n bs).map fun p => (b :: p.1, p.2)

/-- The `u32` variant index bincode assigns to a `ValueType`. -/
def ValueType.tag : ValueType → Nat
  | ValueType.String => 0
  | ValueType.Integer => 1

/-- `StorageValue::to_binary` (`value.rs` lines 37-39): the bincode
encoding of the three fields in declaration order. -/
def StorageValue.to_binary (sv : StorageValue) : List Nat :=
  leBytes 4 sv.value_type.tag
    ++ leBytes 8 ((sv.ttl % 2 ^ 64).toNat)
    ++ leBytes 8 sv.value.length
    ++ sv.value

/-- `StorageValue::from_binary` (`value.rs` lines 46-48): the bincode
decoder for the same layout.  The source unwraps the deserialization; the
embedding returns `none` where the source would panic on malformed bytes. -/
def StorageValue.from_binary (data : List Nat) : Option StorageValue := do
  let (tag, r1) ← readLe 4 data
  let vt ← match tag with
    | 0 => some ValueType.String
    | 1 => some ValueType.Integer
    | _ => none
  let (tn, r2) ← readLe 8 r1
  let ttl : Int := if tn < 2 ^ 63 then (tn : Int) else (tn : Int) - 2 ^ 64
  let (len, r3) ← readLe 8 r2
  let (bytes, _rest) ← takeExact len r3
  some ⟨vt, ttl, bytes⟩

example :
    StorageValue.from_binary (StorageValue.to_binary ⟨ValueType.Integer, -1, [52, 50]⟩)
      = some ⟨ValueType.Integer, -1, [52, 50]⟩ := by decide

/-- Reading back `k` little-endian bytes recovers any value below `256^k`
and leaves the remainder untouched. -/
theorem readLe_leBytes (k : Nat) : ∀ (n : Nat) (rest : List Nat), n < 256 ^ k →
    readLe k (leBytes k n ++ rest) = some (n, rest) := by
  induction k with
  | zero =>
      intro n rest h
      simp [leBytes, readLe]
      omega
  | succ k ih =>
      intro n rest h
      have hdiv : n / 256 < 256 ^ k := by
        rw [Nat.div_lt_iff_lt_mul (by norm_num)]
        calc n < 256 ^ (k + 1) := h
        _ = 256 ^ k * 256 := by rw [Nat.pow_succ]
      simp [leBytes, readLe, ih (n / 256) rest hdiv]
      omega

/-- Splitting off exactly the length of a list appended to a remainder
recovers the list and the remainder. -/
theorem takeExact_append (xs : List Nat) : ∀ rest : List Nat,
    takeExact xs.length (xs ++ rest) = some (xs, rest) := by
  induction xs with
  | nil => intro rest; simp [takeExact]
  | cons b bs ih => intro rest; simp [takeExact, ih rest]

/-! ## Claim theorems -/

/-- Splitting off exactly the length of a list recovers the whole list with
an empty remainder. -/
theorem takeExact_self (xs : List Nat) : takeExact xs.length xs = some (xs, []) := by
  have h := takeExact_append xs []
  simpa using h

/-- Claim C10: for every `StorageValue` `v` (with `ttl` in the `i64` range
and a representable byte length, as the Rust types guarantee),
`StorageValue::from_binary(v.to_binary())` recovers `v` in all three fields:
the binary encoding used by all backends to persist entries is a lossless
round-trip. -/
theorem c10_binary_round_trip (sv : StorageValue)
    (h1 : -(2 ^ 63) ≤ sv.ttl) (h2 : sv.ttl < 2 ^ 63) (h3 : sv.value.length < 2 ^ 64) :
    StorageValue.from_binary sv.to_binary = some sv := by
  obtain ⟨vt, t, val⟩ := sv
  simp only [StorageValue.ttl, StorageValue.value] at h1 h2 h3
  have hnn : (0 : Int) ≤ t % 18446744073709551616 := Int.emod_nonneg t (by norm_num)
  have htn : (t % 18446744073709551616).toNat < 18446744073709551616 := by omega
  have hlen : val.length < 18446744073709551616 := by
    have hp : (2 : Nat) ^ 64 = 18446744073709551616 := by norm_num
    omega
  have hti : -9223372036854775808 ≤ t ∧ t < 9223372036854775808 := by
    have hp : (2 : Int) ^ 63 = 9223372036854775808 := by norm_num
    constructor <;> omega
  have h256 : (256 : Nat) ^ 8 = 18446744073709551616 := by norm_num
  unfold StorageValue.to_binary StorageValue.from_binary
  simp only [List.append_assoc]
  cases vt <;>
      simp [ValueType.tag, readLe_leBytes, htn, hlen, h256, takeExact_self,
        Int.toNat_of_nonneg hnn] <;>
    (split <;> omega)

/-- Witness for the C10 round trip at the concrete entry
`{Integer, ttl := -1, value := "42"}`. -/
theorem c10_binary_round_trip_witness :
    -(2 ^ 63) ≤ (StorageValue.mk ValueType.Integer (-1) [52, 50]).ttl ∧
    (StorageValue.mk ValueType.Integer (-1) [52, 50]).ttl < 2 ^ 63 ∧
    (StorageValue.mk ValueType.Integer (-1) [52, 50]).value.length < 2 ^ 64 ∧
    StorageValue.from_binary (StorageValue.mk ValueType.Integer (-1) [52, 50]).to_binary
      = some (StorageValue.mk ValueType.Integer (-1) [52, 50]) :=
  ⟨by decide, by decide, by decide,
    c10_binary_round_trip ⟨ValueType.Integer, -1, [52, 50]⟩ (by decide) (by decide) (by decide)⟩

/-- Claim C1 fails on the in-memory backend: `Bredis::get` reads the entry
through `get_mut` and executes `value.ttl -= now` on the stored entry, so a
`get` that returns `Some` leaves a *relative* remaining-seconds ttl in the
map instead of the absolute expiration instant.  Concretely: at epoch 1000,
`set(k, ttl 100)` stores the absolute instant 1100, but the first `get`
rewrites the stored ttl to 100, and a `get` one second later then treats
100 as an absolute instant in the past and deletes the still-live entry. -/
theorem c1_bredis_get_persists_relative_ttl :
    Bredis.set [] 1000 [107] ⟨ValueType.String, 100, [118]⟩
      = (Except.ok (), [([107], ⟨ValueType.String, 1100, [118]⟩)]) ∧
    Bredis.get [([107], ⟨ValueType.String, 1100, [118]⟩)] 1000 [107]
      = (Except.ok (some ⟨ValueType.String, 100, [118]⟩),
         [([107], ⟨ValueType.String, 100, [118]⟩)]) ∧
    Bredis.get [([107], ⟨ValueType.String, 100, [118]⟩)] 1001 [107]
      = (Except.ok none, []) := by
  decide

/-- Claim C2 fails on the in-memory backend: `Bredis::increment` resolves
the entry with `entry(key).or_insert_with(..)`, so
`increment(missing_key, 1, None)` creates a fresh Integer entry (seeded with
`default_value.unwrap_or(0)`) and returns `Ok` instead of failing with
`ValueNotFound`; the other two backends follow the contract. -/
theorem c2_increment_missing_key_no_default :
    Rocksdb.increment [] [107] 1 none
      = (Except.error (DatabaseError.ValueNotFound [107]), []) ∧
    SurrealKV.increment [] [107] 1 none
      = (Except.error (DatabaseError.ValueNotFound [107]), []) ∧
    Rocksdb.decrement [] [107] 1 none
      = (Except.error (DatabaseError.ValueNotFound [107]), []) ∧
    SurrealKV.decrement [] [107] 1 none
      = (Except.error (DatabaseError.ValueNotFound [107]), []) ∧
    Bredis.increment [] [107] 1 none
      = BredisCounterResult.ok ⟨ValueType.Integer, -1, [49]⟩
          [([107], ⟨ValueType.Integer, -1, [49]⟩)] ∧
    Bredis.decrement [] [107] 1 none
      = BredisCounterResult.ok ⟨ValueType.Integer, -1, [45, 49]⟩
          [([107], ⟨ValueType.Integer, -1, [45, 49]⟩)] := by
  decide

/-- Claim C3 fails on every backend.  With an entry stored at key `k` whose
absolute expiration instant 1100 has passed at `now = 2000`:
`Rocksdb::get` returns `None` but its expiry delete is buffered in a
transaction that is never committed (and even targets the entry's value
bytes, not its key), so the entry survives; `SurrealKV::get` returns `None`
but returns before `txn.commit()`, so its buffered delete is likewise lost;
and `Bredis::get` at remaining ttl exactly 0 (`now = 1100`) returns `Some`
instead of treating the entry as expired. -/
theorem c3_expired_get_delete_not_durable :
    Rocksdb.get [([107], ⟨ValueType.String, 1100, [118]⟩)] 2000 [107]
      = (Except.ok none, [([107], ⟨ValueType.String, 1100, [118]⟩)]) ∧
    SurrealKV.get [([107], ⟨ValueType.String, 1100, [118]⟩)] 2000 [107]
      = (Except.ok none, [([107], ⟨ValueType.String, 1100, [118]⟩)]) ∧
    Bredis.get [([107], ⟨ValueType.String, 1100, [118]⟩)] 1100 [107]
      = (Except.ok (some ⟨ValueType.String, 0, [118]⟩),
         [([107], ⟨ValueType.String, 0, [118]⟩)]) := by
  decide

/-- Claim C4 fails on two backends.  `Rocksdb::get_all_keys` never checks
that a key returned by the engine's iterator still starts with the
requested bytes, so the scan for `"a"` over keys `{"a1", "b1"}` also
returns `"b1"`; and `Bredis::get_all_keys` consults no clock and applies no
expiry filtering, so a long-expired entry (stored instant 1100, with any
current time from 1100 on) is still listed. -/
theorem c4_get_all_keys_scope_violations :
    (Rocksdb.get_all_keys
        [([97, 49], ⟨ValueType.String, -1, [118]⟩), ([98, 49], ⟨ValueType.String, -1, [118]⟩)]
        2000 [97]).1
      = Except.ok [[97, 49], [98, 49]] ∧
    bytesStartWith [98, 49] [97] = false ∧
    Bredis.get_all_keys [([107], ⟨ValueType.String, 1100, [118]⟩)] []
      = (Except.ok [[107]], [([107], ⟨ValueType.String, 1100, [118]⟩)]) ∧
    (1100 : Int) - 2000 ≤ 0 := by
  decide

/-- Claim C5 fails on the versioned-store backend: on an expired key,
`SurrealKV::get_ttl` buffers `txn.delete(key)` but returns the
`ValueNotFound` error without reaching `txn.commit()`, so the entry is
*not* durably deleted (the other two backends do delete it durably before
raising the error). -/
theorem c5_get_ttl_expired_delete_not_durable :
    Bredis.get_ttl [([107], ⟨ValueType.String, 1100, [118]⟩)] 2000 [107]
      = (Except.error (DatabaseError.ValueNotFound [107]), []) ∧
    Rocksdb.get_ttl [([107], ⟨ValueType.String, 1100, [118]⟩)] 2000 [107]
      = (Except.error (DatabaseError.ValueNotFound [107]), []) ∧
    SurrealKV.get_ttl [([107], ⟨ValueType.String, 1100, [118]⟩)] 2000 [107]
      = (Except.error (DatabaseError.ValueNotFound [107]),
         [([107], ⟨ValueType.String, 1100, [118]⟩)]) := by
  decide

/-- Claim C9 fails on the in-memory backend: on an Integer entry whose
value bytes are valid UTF-8 but not a decimal `i64` (here `"abc"`), the two
engine backends surface `InternalError` through `get_integer_value`, but
`Bredis::increment`/`decrement` run `.parse::<i64>().unwrap()` and panic. -/
theorem c9_unparsable_integer_panics_in_bredis :
    isValidUtf8 [97, 98, 99] = true ∧
    parseI64 [97, 98, 99] = none ∧
    Rocksdb.increment [([107], ⟨ValueType.Integer, -1, [97, 98, 99]⟩)] [107] 1 none
      = (Except.error (DatabaseError.InternalError "Failed to parse integer value"),
         [([107], ⟨ValueType.Integer, -1, [97, 98, 99]⟩)]) ∧
    SurrealKV.increment [([107], ⟨ValueType.Integer, -1, [97, 98, 99]⟩)] [107] 1 none
      = (Except.error (DatabaseError.InternalError "Failed to parse integer value"),
         [([107], ⟨ValueType.Integer, -1, [97, 98, 99]⟩)]) ∧
    Bredis.increment [([107], ⟨ValueType.Integer, -1, [97, 98, 99]⟩)] [107] 1 none
      = BredisCounterResult.panicked ∧
    Bredis.decrement [([107], ⟨ValueType.Integer, -1, [97, 98, 99]⟩)] [107] 1 none
      = BredisCounterResult.panicked := by
  decide

/-- Looking up a key right after inserting it yields the inserted entry. -/
theorem lookupKV_insertKV (s : KVStore) (k : Key) (v : StorageValue) :
    lookupKV (insertKV s k v) k = some v := by
  induction s with
  | nil => simp [insertKV, lookupKV]
  | cons e rest ih =>
      obtain ⟨k0, v0⟩ := e
      by_cases h : k0 = k <;> simp [insertKV, lookupKV, h, ih]

/-- Claim C6: on every backend, `set(k, v)` at time `t1` followed by
`get(k)` at time `t2` before any expiry (clock readings are non-negative
and monotone, and either `v` requested no expiry or its remaining time is
still positive) returns `Some` of an entry that agrees with `v` on
`value_type` and on the value bytes, with only the `ttl` field normalized
(`-1`, or the remaining seconds). -/
theorem c6_set_then_get_round_trip (store : KVStore) (k : Key) (v : StorageValue)
    (t1 t2 : Int) (h0 : 0 ≤ t1) (h1 : t1 ≤ t2) (h : v.ttl < 0 ∨ 0 < v.ttl + t1 - t2) :
    (if v.ttl < 0 then ({ v with ttl := -1 } : StorageValue)
      else { v with ttl := v.ttl + t1 - t2 }).value_type = v.value_type ∧
    (if v.ttl < 0 then ({ v with ttl := -1 } : StorageValue)
      else { v with ttl := v.ttl + t1 - t2 }).value = v.value ∧
    (Rocksdb.get (Rocksdb.set store t1 k v).2 t2 k).1
      = Except.ok (some (if v.ttl < 0 then { v with ttl := -1 }
          else { v with ttl := v.ttl + t1 - t2 })) ∧
    (SurrealKV.get (SurrealKV.set store t1 k v).2 t2 k).1
      = Except.ok (some (if v.ttl < 0 then { v with ttl := -1 }
          else { v with ttl := v.ttl + t1 - t2 })) ∧
    (Bredis.get (Bredis.set store t1 k v).2 t2 k).1
      = Except.ok (some (if v.ttl < 0 then { v with ttl := -1 }
          else { v with ttl := v.ttl + t1 - t2 })) := by
  by_cases hv : v.ttl < 0
  · have hs : ¬ (v.ttl ≥ 0) := by omega
    simp [hv, hs, Rocksdb.set, Rocksdb.get, Rocksdb.delete_on_ttl, SurrealKV.set, SurrealKV.get,
      Bredis.set, Bredis.get, applyOps, lookupKV_insertKV]
  · have hr : 0 < v.ttl + t1 - t2 := by
      cases h with
      | inl hl => exact absurd hl hv
      | inr hrr => exact hrr
    have ha : v.ttl + t1 > -1 := by omega
    have hb : ¬ (v.ttl + t1 - t2 ≤ 0) := by omega
    have hc : ¬ (v.ttl + t1 - t2 < 0) := by omega
    have hd : v.ttl ≥ 0 := by omega
    have helt : ¬ (v.ttl + t1 < 0) := by omega
    simp [hv, hd, helt, Rocksdb.set, Rocksdb.get, Rocksdb.delete_on_ttl, SurrealKV.set,
      SurrealKV.get, Bredis.set, Bredis.get, applyOps, lookupKV_insertKV, ha, hb, hc]

/-- Witness for C6 at `v = {String, ttl 5, "x"}`, `set` at epoch 100 and
`get` at epoch 103 (remaining 2 seconds). -/
theorem c6_set_then_get_round_trip_witness :
    (0 : Int) ≤ 100 ∧ (100 : Int) ≤ 103 ∧ ((5 : Int) < 0 ∨ (0 : Int) < 5 + 100 - 103) ∧
    ((⟨ValueType.String, 2, [120]⟩ : StorageValue).value_type = ValueType.String ∧
      (⟨ValueType.String, 2, [120]⟩ : StorageValue).value = [120] ∧
      (Rocksdb.get (Rocksdb.set [] 100 [107] ⟨ValueType.String, 5, [120]⟩).2 103 [107]).1
        = Except.ok (some ⟨ValueType.String, 2, [120]⟩) ∧
      (SurrealKV.get (SurrealKV.set [] 100 [107] ⟨ValueType.String, 5, [120]⟩).2 103 [107]).1
        = Except.ok (some ⟨ValueType.String, 2, [120]⟩) ∧
      (Bredis.get (Bredis.set [] 100 [107] ⟨ValueType.String, 5, [120]⟩).2 103 [107]).1
        = Except.ok (some ⟨ValueType.String, 2, [120]⟩)) :=
  ⟨by decide, by decide, by decide,
    c6_set_then_get_round_trip [] [107] ⟨ValueType.String, 5, [120]⟩ 100 103
      (by decide) (by decide) (by decide)⟩

/-- On a present key, a successful `Rocksdb::increment` preserves the
stored entry's ttl and type and persists the result under the key. -/
theorem rocksdbIncrExisting (s : KVStore) (k : Key) (d : Int) (dv : Option Int)
    (sv v2 : StorageValue) (st : KVStore) (h : lookupKV s k = some sv)
    (he : Rocksdb.increment s k d dv = (Except.ok v2, st)) :
    v2.ttl = sv.ttl ∧ v2.value_type = sv.value_type ∧ lookupKV st k = some v2 := by
  simp only [Rocksdb.increment, h] at he
  cases hgi : sv.get_integer_value with
  | error e => rw [hgi] at he; cases he
  | ok cur =>
      rw [hgi] at he
      simp only [applyOps] at he
      cases he
      exact ⟨rfl, rfl, lookupKV_insertKV s k _⟩

/-- On a present key, a successful `Rocksdb::decrement` preserves the
stored entry's ttl and type and persists the result under the key. -/
theorem rocksdbDecrExisting (s : KVStore) (k : Key) (d : Int) (dv : Option Int)
    (sv v2 : StorageValue) (st : KVStore) (h : lookupKV s k = some sv)
    (he : Rocksdb.decrement s k d dv = (Except.ok v2, st)) :
    v2.ttl = sv.ttl ∧ v2.value_type = sv.value_type ∧ lookupKV st k = some v2 := by
  simp only [Rocksdb.decrement, h] at he
  cases hgi : sv.get_integer_value with
  | error e => rw [hgi] at he; cases he
  | ok cur =>
      rw [hgi] at he
      simp only [applyOps] at he
      cases he
      exact ⟨rfl, rfl, lookupKV_insertKV s k _⟩

/-- On a present key, a successful `SurrealKV::increment` preserves the
stored entry's ttl and type and persists the result under the key. -/
theorem surrealIncrExisting (s : KVStore) (k : Key) (d : Int) (dv : Option Int)
    (sv v2 : StorageValue) (st : KVStore) (h : lookupKV s k = some sv)
    (he : SurrealKV.increment s k d dv = (Except.ok v2, st)) :
    v2.ttl = sv.ttl ∧ v2.value_type = sv.value_type ∧ lookupKV st k = some v2 := by
  simp only [SurrealKV.increment, h] at he
  cases hgi : sv.get_integer_value with
  | error e => rw [hgi] at he; cases he
  | ok cur =>
      rw [hgi] at he
      simp only [applyOps] at he
      cases he
      exact ⟨rfl, rfl, lookupKV_insertKV s k _⟩

/-- On a present key, a successful `SurrealKV::decrement` preserves the
stored entry's ttl and type and persists the result under the key. -/
theorem surrealDecrExisting (s : KVStore) (k : Key) (d : Int) (dv : Option Int)
    (sv v2 : StorageValue) (st : KVStore) (h : lookupKV s k = some sv)
    (he : SurrealKV.decrement s k d dv = (Except.ok v2, st)) :
    v2.ttl = sv.ttl ∧ v2.value_type = sv.value_type ∧ lookupKV st k = some v2 := by
  simp only [SurrealKV.decrement, h] at he
  cases hgi : sv.get_integer_value with
  | error e => rw [hgi] at he; cases he
  | ok cur =>
      rw [hgi] at he
      simp only [applyOps] at he
      cases he
      exact ⟨rfl, rfl, lookupKV_insertKV s k _⟩

/-- On a present key, a successful `Bredis::increment` preserves the
stored entry's ttl and type and persists the result under the key. -/
theorem bredisIncrExisting (s : KVStore) (k : Key) (d : Int) (dv : Option Int)
    (sv v2 : StorageValue) (st : KVStore) (h : lookupKV s k = some sv)
    (he : Bredis.increment s k d dv = BredisCounterResult.ok v2 st) :
    v2.ttl = sv.ttl ∧ v2.value_type = sv.value_type ∧ lookupKV st k = some v2 := by
  simp only [Bredis.increment, h] at he
  split at he
  · cases he
  · split at he
    · cases he
    · split at he
      · cases he
      · cases he
        exact ⟨rfl, rfl, lookupKV_insertKV s k _⟩

/-- On a present key, a successful `Bredis::decrement` preserves the
stored entry's ttl and type and persists the result under the key. -/
theorem bredisDecrExisting (s : KVStore) (k : Key) (d : Int) (dv : Option Int)
    (sv v2 : StorageValue) (st : KVStore) (h : lookupKV s k = some sv)
    (he : Bredis.decrement s k d dv = BredisCounterResult.ok v2 st) :
    v2.ttl = sv.ttl ∧ v2.value_type = sv.value_type ∧ lookupKV st k = some v2 := by
  simp only [Bredis.decrement, h] at he
  split at he
  · cases he
  · split at he
    · cases he
    · split at he
      · cases he
      · cases he
        exact ⟨rfl, rfl, lookupKV_insertKV s k _⟩

/-- On an absent key with a default, a successful `Rocksdb::increment`
stores a fresh no-expiry entry. -/
theorem rocksdbIncrFresh (s : KVStore) (k : Key) (d d0 : Int)
    (v2 : StorageValue) (st : KVStore) (h : lookupKV s k = none)
    (he : Rocksdb.increment s k d (some d0) = (Except.ok v2, st)) :
    v2.ttl = -1 ∧ lookupKV st k = some v2 := by
  simp only [Rocksdb.increment, h, applyOps] at he
  cases he
  exact ⟨rfl, lookupKV_insertKV s k _⟩

/-- On an absent key with a default, a successful `Rocksdb::decrement`
stores a fresh no-expiry entry. -/
theorem rocksdbDecrFresh (s : KVStore) (k : Key) (d d0 : Int)
    (v2 : StorageValue) (st : KVStore) (h : lookupKV s k = none)
    (he : Rocksdb.decrement s k d (some d0) = (Except.ok v2, st)) :
    v2.ttl = -1 ∧ lookupKV st k = some v2 := by
  simp only [Rocksdb.decrement, h, applyOps] at he
  cases he
  exact ⟨rfl, lookupKV_insertKV s k _⟩

/-- On an absent key with a default, a successful `SurrealKV::increment`
stores a fresh no-expiry entry. -/
theorem surrealIncrFresh (s : KVStore) (k : Key) (d d0 : Int)
    (v2 : StorageValue) (st : KVStore) (h : lookupKV s k = none)
    (he : SurrealKV.increment s k d (some d0) = (Except.ok v2, st)) :
    v2.ttl = -1 ∧ lookupKV st k = some v2 := by
  simp only [SurrealKV.increment, h, applyOps] at he
  cases he
  exact ⟨rfl, lookupKV_insertKV s k _⟩

/-- On an absent key with a default, a successful `SurrealKV::decrement`
stores a fresh no-expiry entry. -/
theorem surrealDecrFresh (s : KVStore) (k : Key) (d d0 : Int)
    (v2 : StorageValue) (st : KVStore) (h : lookupKV s k = none)
    (he : SurrealKV.decrement s k d (some d0) = (Except.ok v2, st)) :
    v2.ttl = -1 ∧ lookupKV st k = some v2 := by
  simp only [SurrealKV.decrement, h, applyOps] at he
  cases he
  exact ⟨rfl, lookupKV_insertKV s k _⟩

/-- On an absent key, a successful `Bredis::increment` stores a fresh
no-expiry entry. -/
theorem bredisIncrFresh (s : KVStore) (k : Key) (d : Int) (dv : Option Int)
    (v2 : StorageValue) (st : KVStore) (h : lookupKV s k = none)
    (he : Bredis.increment s k d dv = BredisCounterResult.ok v2 st) :
    v2.ttl = -1 ∧ lookupKV st k = some v2 := by
  simp only [Bredis.increment, h] at he
  split at he
  · cases he
  · split at he
    · cases he
    · split at he
      · cases he
      · cases he
        exact ⟨rfl, lookupKV_insertKV _ k _⟩

/-- On an absent key, a successful `Bredis::decrement` stores a fresh
no-expiry entry. -/
theorem bredisDecrFresh (s : KVStore) (k : Key) (d : Int) (dv : Option Int)
    (v2 : StorageValue) (st : KVStore) (h : lookupKV s k = none)
    (he : Bredis.decrement s k d dv = BredisCounterResult.ok v2 st) :
    v2.ttl = -1 ∧ lookupKV st k = some v2 := by
  simp only [Bredis.decrement, h] at he
  split at he
  · cases he
  · split at he
    · cases he
    · split at he
      · cases he
      · cases he
        exact ⟨rfl, lookupKV_insertKV _ k _⟩

/-- Claim C7: on every backend, a successful `increment`/`decrement` on a
pre-existing key leaves the entry's ttl (and type tag) unchanged, rewriting
only the value bytes, and the result persisted under the key; a
freshly-created entry (absent key, default supplied) is stored with
ttl `-1` (no expiry). -/
theorem c7_counter_ops_preserve_ttl
    (s1 s2 : KVStore) (k : Key) (d d0 : Int) (dv : Option Int) (sv : StorageValue)
    (vR vS vB wR wS wB vR2 vS2 vB2 : StorageValue)
    (stR stS stB suR suS suB stR2 stS2 stB2 : KVStore)
    (h1 : lookupKV s1 k = some sv)
    (hR : Rocksdb.increment s1 k d dv = (Except.ok vR, stR))
    (hS : SurrealKV.increment s1 k d dv = (Except.ok vS, stS))
    (hB : Bredis.increment s1 k d dv = BredisCounterResult.ok vB stB)
    (hRd : Rocksdb.decrement s1 k d dv = (Except.ok wR, suR))
    (hSd : SurrealKV.decrement s1 k d dv = (Except.ok wS, suS))
    (hBd : Bredis.decrement s1 k d dv = BredisCounterResult.ok wB suB)
    (h2 : lookupKV s2 k = none)
    (hR2 : Rocksdb.increment s2 k d (some d0) = (Except.ok vR2, stR2))
    (hS2 : SurrealKV.increment s2 k d (some d0) = (Except.ok vS2, stS2))
    (hB2 : Bredis.increment s2 k d (some d0) = BredisCounterResult.ok vB2 stB2) :
    (vR.ttl = sv.ttl ∧ vR.value_type = sv.value_type ∧ lookupKV stR k = some vR) ∧
    (vS.ttl = sv.ttl ∧ vS.value_type = sv.value_type ∧ lookupKV stS k = some vS) ∧
    (vB.ttl = sv.ttl ∧ vB.value_type = sv.value_type ∧ lookupKV stB k = some vB) ∧
    (wR.ttl = sv.ttl ∧ wR.value_type = sv.value_type ∧ lookupKV suR k = some wR) ∧
    (wS.ttl = sv.ttl ∧ wS.value_type = sv.value_type ∧ lookupKV suS k = some wS) ∧
    (wB.ttl = sv.ttl ∧ wB.value_type = sv.value_type ∧ lookupKV suB k = some wB) ∧
    (vR2.ttl = -1 ∧ lookupKV stR2 k = some vR2) ∧
    (vS2.ttl = -1 ∧ lookupKV stS2 k = some vS2) ∧
    (vB2.ttl = -1 ∧ lookupKV stB2 k = some vB2) :=
  ⟨rocksdbIncrExisting s1 k d dv sv vR stR h1 hR,
    surrealIncrExisting s1 k d dv sv vS stS h1 hS,
    bredisIncrExisting s1 k d dv sv vB stB h1 hB,
    rocksdbDecrExisting s1 k d dv sv wR suR h1 hRd,
    surrealDecrExisting s1 k d dv sv wS suS h1 hSd,
    bredisDecrExisting s1 k d dv sv wB suB h1 hBd,
    rocksdbIncrFresh s2 k d d0 vR2 stR2 h2 hR2,
    surrealIncrFresh s2 k d d0 vS2 stS2 h2 hS2,
    bredisIncrFresh s2 k d (some d0) vB2 stB2 h2 hB2⟩

/-- Witness for C7: key `"k"` holding the Integer entry `"42"` with
ttl 77 (increment/decrement by 1 keeps ttl 77), and a fresh entry created
by `increment(k, 1, Some(5))` on the empty store (value 6, ttl -1). -/
theorem c7_counter_ops_preserve_ttl_witness :
    (lookupKV [([107], ⟨ValueType.Integer, 77, [52, 50]⟩)] [107] = some (⟨ValueType.Integer, 77, [52, 50]⟩ : StorageValue)) ∧
    (Rocksdb.increment [([107], ⟨ValueType.Integer, 77, [52, 50]⟩)] [107] 1 (some 5) = (Except.ok (⟨ValueType.Integer, 77, [52, 51]⟩ : StorageValue), [([107], ⟨ValueType.Integer, 77, [52, 51]⟩)])) ∧
    (SurrealKV.increment [([107], ⟨ValueType.Integer, 77, [52, 50]⟩)] [107] 1 (some 5) = (Except.ok (⟨ValueType.Integer, 77, [52, 51]⟩ : StorageValue), [([107], ⟨ValueType.Integer, 77, [52, 51]⟩)])) ∧
    (Bredis.increment [([107], ⟨ValueType.Integer, 77, [52, 50]⟩)] [107] 1 (some 5) = BredisCounterResult.ok (⟨ValueType.Integer, 77, [52, 51]⟩ : StorageValue) [([107], ⟨ValueType.Integer, 77, [52, 51]⟩)]) ∧
    (Rocksdb.decrement [([107], ⟨ValueType.Integer, 77, [52, 50]⟩)] [107] 1 (some 5) = (Except.ok (⟨ValueType.Integer, 77, [52, 49]⟩ : StorageValue), [([107], ⟨ValueType.Integer, 77, [52, 49]⟩)])) ∧
    (SurrealKV.decrement [([107], ⟨ValueType.Integer, 77, [52, 50]⟩)] [107] 1 (some 5) = (Except.ok (⟨ValueType.Integer, 77, [52, 49]⟩ : StorageValue), [([107], ⟨ValueType.Integer, 77, [52, 49]⟩)])) ∧
    (Bredis.decrement [([107], ⟨ValueType.Integer, 77, [52, 50]⟩)] [107] 1 (some 5) = BredisCounterResult.ok (⟨ValueType.Integer, 77, [52, 49]⟩ : StorageValue) [([107], ⟨ValueType.Integer, 77, [52, 49]⟩)]) ∧
    (lookupKV [] [107] = none) ∧
    (Rocksdb.increment [] [107] 1 (some 5) = (Except.ok (⟨ValueType.Integer, -1, [54]⟩ : StorageValue), [([107], ⟨ValueType.Integer, -1, [54]⟩)])) ∧
    (SurrealKV.increment [] [107] 1 (some 5) = (Except.ok (⟨ValueType.Integer, -1, [54]⟩ : StorageValue), [([107], ⟨ValueType.Integer, -1, [54]⟩)])) ∧
    (Bredis.increment [] [107] 1 (some 5) = BredisCounterResult.ok (⟨ValueType.Integer, -1, [54]⟩ : StorageValue) [([107], ⟨ValueType.Integer, -1, [54]⟩)]) ∧
    ((⟨ValueType.Integer, 77, [52, 51]⟩ : StorageValue).ttl = (⟨ValueType.Integer, 77, [52, 50]⟩ : StorageValue).ttl ∧ (⟨ValueType.Integer, 77, [52, 51]⟩ : StorageValue).value_type = (⟨ValueType.Integer, 77, [52, 50]⟩ : StorageValue).value_type ∧
      lookupKV [([107], ⟨ValueType.Integer, 77, [52, 51]⟩)] [107] = some (⟨ValueType.Integer, 77, [52, 51]⟩ : StorageValue)) ∧
    ((⟨ValueType.Integer, 77, [52, 51]⟩ : StorageValue).ttl = (⟨ValueType.Integer, 77, [52, 50]⟩ : StorageValue).ttl ∧ (⟨ValueType.Integer, 77, [52, 51]⟩ : StorageValue).value_type = (⟨ValueType.Integer, 77, [52, 50]⟩ : StorageValue).value_type ∧
      lookupKV [([107], ⟨ValueType.Integer, 77, [52, 51]⟩)] [107] = some (⟨ValueType.Integer, 77, [52, 51]⟩ : StorageValue)) ∧
    ((⟨ValueType.Integer, 77, [52, 51]⟩ : StorageValue).ttl = (⟨ValueType.Integer, 77, [52, 50]⟩ : StorageValue).ttl ∧ (⟨ValueType.Integer, 77, [52, 51]⟩ : StorageValue).value_type = (⟨ValueType.Integer, 77, [52, 50]⟩ : StorageValue).value_type ∧
      lookupKV [([107], ⟨ValueType.Integer, 77, [52, 51]⟩)] [107] = some (⟨ValueType.Integer, 77, [52, 51]⟩ : StorageValue)) ∧
    ((⟨ValueType.Integer, 77, [52, 49]⟩ : StorageValue).ttl = (⟨ValueType.Integer, 77, [52, 50]⟩ : StorageValue).ttl ∧ (⟨ValueType.Integer, 77, [52, 49]⟩ : StorageValue).value_type = (⟨ValueType.Integer, 77, [52, 50]⟩ : StorageValue).value_type ∧
      lookupKV [([107], ⟨ValueType.Integer, 77, [52, 49]⟩)] [107] = some (⟨ValueType.Integer, 77, [52, 49]⟩ : StorageValue)) ∧
    ((⟨ValueType.Integer, 77, [52, 49]⟩ : StorageValue).ttl = (⟨ValueType.Integer, 77, [52, 50]⟩ : StorageValue).ttl ∧ (⟨ValueType.Integer, 77, [52, 49]⟩ : StorageValue).value_type = (⟨ValueType.Integer, 77, [52, 50]⟩ : StorageValue).value_type ∧
      lookupKV [([107], ⟨ValueType.Integer, 77, [52, 49]⟩)] [107] = some (⟨ValueType.Integer, 77, [52, 49]⟩ : StorageValue)) ∧
    ((⟨ValueType.Integer, 77, [52, 49]⟩ : StorageValue).ttl = (⟨ValueType.Integer, 77, [52, 50]⟩ : StorageValue).ttl ∧ (⟨ValueType.Integer, 77, [52, 49]⟩ : StorageValue).value_type = (⟨ValueType.Integer, 77, [52, 50]⟩ : StorageValue).value_type ∧
      lookupKV [([107], ⟨ValueType.Integer, 77, [52, 49]⟩)] [107] = some (⟨ValueType.Integer, 77, [52, 49]⟩ : StorageValue)) ∧
    ((⟨ValueType.Integer, -1, [54]⟩ : StorageValue).ttl = -1 ∧ lookupKV [([107], ⟨ValueType.Integer, -1, [54]⟩)] [107] = some (⟨ValueType.Integer, -1, [54]⟩ : StorageValue)) ∧
    ((⟨ValueType.Integer, -1, [54]⟩ : StorageValue).ttl = -1 ∧ lookupKV [([107], ⟨ValueType.Integer, -1, [54]⟩)] [107] = some (⟨ValueType.Integer, -1, [54]⟩ : StorageValue)) ∧
    ((⟨ValueType.Integer, -1, [54]⟩ : StorageValue).ttl = -1 ∧ lookupKV [([107], ⟨ValueType.Integer, -1, [54]⟩)] [107] = some (⟨ValueType.Integer, -1, [54]⟩ : StorageValue)) :=
  ⟨by decide, by decide, by decide, by decide, by decide, by decide, by decide, by decide,
    by decide, by decide, by decide,
    c7_counter_ops_preserve_ttl
      [([107], ⟨ValueType.Integer, 77, [52, 50]⟩)] [] [107] 1 5 (some 5)
      ⟨ValueType.Integer, 77, [52, 50]⟩
      ⟨ValueType.Integer, 77, [52, 51]⟩ ⟨ValueType.Integer, 77, [52, 51]⟩
      ⟨ValueType.Integer, 77, [52, 51]⟩ ⟨ValueType.Integer, 77, [52, 49]⟩
      ⟨ValueType.Integer, 77, [52, 49]⟩ ⟨ValueType.Integer, 77, [52, 49]⟩
      ⟨ValueType.Integer, -1, [54]⟩ ⟨ValueType.Integer, -1, [54]⟩ ⟨ValueType.Integer, -1, [54]⟩
      [([107], ⟨ValueType.Integer, 77, [52, 51]⟩)] [([107], ⟨ValueType.Integer, 77, [52, 51]⟩)]
      [([107], ⟨ValueType.Integer, 77, [52, 51]⟩)] [([107], ⟨ValueType.Integer, 77, [52, 49]⟩)]
      [([107], ⟨ValueType.Integer, 77, [52, 49]⟩)] [([107], ⟨ValueType.Integer, 77, [52, 49]⟩)]
      [([107], ⟨ValueType.Integer, -1, [54]⟩)] [([107], ⟨ValueType.Integer, -1, [54]⟩)]
      [([107], ⟨ValueType.Integer, -1, [54]⟩)]
      (by decide) (by decide) (by decide) (by decide) (by decide) (by decide) (by decide) (by decide) (by decide) (by decide) (by decide)⟩

/-- Claim C8: on every backend, `increment`/`decrement` on a key whose
stored entry has type `String` fails with `InvalidValueType` and leaves
the store unchanged (the entry keeps its bytes, type and ttl). -/
theorem c8_counter_on_string_fails (store : KVStore) (k : Key) (d : Int) (dv : Option Int)
    (sv : StorageValue) (h : lookupKV store k = some sv)
    (ht : sv.value_type = ValueType.String) :
    Rocksdb.increment store k d dv
      = (Except.error (DatabaseError.InvalidValueType "Value is not an integer"), store) ∧
    SurrealKV.increment store k d dv
      = (Except.error (DatabaseError.InvalidValueType "Value is not an integer"), store) ∧
    Bredis.increment store k d dv
      = BredisCounterResult.err (DatabaseError.InvalidValueType "Value is not an integer") store ∧
    Rocksdb.decrement store k d dv
      = (Except.error (DatabaseError.InvalidValueType "Value is not an integer"), store) ∧
    SurrealKV.decrement store k d dv
      = (Except.error (DatabaseError.InvalidValueType "Value is not an integer"), store) ∧
    Bredis.decrement store k d dv
      = BredisCounterResult.err (DatabaseError.InvalidValueType "Value is not an integer") store := by
  have hgi : sv.get_integer_value
      = Except.error (DatabaseError.InvalidValueType "Value is not an integer") := by
    simp [StorageValue.get_integer_value, ht]
  refine ⟨?_, ?_, ?_, ?_, ?_, ?_⟩ <;>
    simp [Rocksdb.increment, Rocksdb.decrement, SurrealKV.increment, SurrealKV.decrement,
      Bredis.increment, Bredis.decrement, h, hgi, ht]

/-- Witness for C8 at the entry `{String, ttl -1, "x"}` under key `"k"`. -/
theorem c8_counter_on_string_fails_witness :
    lookupKV [([107], ⟨ValueType.String, -1, [120]⟩)] [107]
      = some ⟨ValueType.String, -1, [120]⟩ ∧
    (⟨ValueType.String, -1, [120]⟩ : StorageValue).value_type = ValueType.String ∧
    (Rocksdb.increment [([107], ⟨ValueType.String, -1, [120]⟩)] [107] 1 none
      = (Except.error (DatabaseError.InvalidValueType "Value is not an integer"),
         [([107], ⟨ValueType.String, -1, [120]⟩)]) ∧
    SurrealKV.increment [([107], ⟨ValueType.String, -1, [120]⟩)] [107] 1 none
      = (Except.error (DatabaseError.InvalidValueType "Value is not an integer"),
         [([107], ⟨ValueType.String, -1, [120]⟩)]) ∧
    Bredis.increment [([107], ⟨ValueType.String, -1, [120]⟩)] [107] 1 none
      = BredisCounterResult.err (DatabaseError.InvalidValueType "Value is not an integer")
          [([107], ⟨ValueType.String, -1, [120]⟩)] ∧
    Rocksdb.decrement [([107], ⟨ValueType.String, -1, [120]⟩)] [107] 1 none
      = (Except.error (DatabaseError.InvalidValueType "Value is not an integer"),
         [([107], ⟨ValueType.String, -1, [120]⟩)]) ∧
    SurrealKV.decrement [([107], ⟨ValueType.String, -1, [120]⟩)] [107] 1 none
      = (Except.error (DatabaseError.InvalidValueType "Value is not an integer"),
         [([107], ⟨ValueType.String, -1, [120]⟩)]) ∧
    Bredis.decrement [([107], ⟨ValueType.String, -1, [120]⟩)] [107] 1 none
      = BredisCounterResult.err (DatabaseError.InvalidValueType "Value is not an integer")
          [([107], ⟨ValueType.String, -1, [120]⟩)]) :=
  ⟨by decide, by decide,
    c8_counter_on_string_fails [([107], ⟨ValueType.String, -1, [120]⟩)] [107] 1 none
      ⟨ValueType.String, -1, [120]⟩ (by decide) (by decide)⟩
